import Mathlib

/-
Verification development for the agent layer of ElegantRL-ray
(file src/elegantrl/AgentZoo/ElegantRL-ray/agent.py).

The Python code is shallowly embedded: tensors of scalars become lists of
rationals, a list of parameter tensors becomes a list of such lists, opaque
networks become explicit function records, and fallible Python evaluation
(attribute errors, calls on None) becomes Except-valued functions.  The real
analysis for the Gaussian KL routine is embedded over the real numbers with
Mathlib matrices.  Each definition carries a reference to the source lines it
embeds.
-/

/-! ### Soft update (AgentBase.soft_update, lines 114-122)

The loop body is `tar.data.copy_(cur.data.__mul__(tau) + tar.data.__mul__(1 - tau))`,
executed for every pair produced by `zip(target_net.parameters(), current_net.parameters())`.
`param_mix` is the elementwise expression; `soft_update` is the value
semantics over whole parameter lists (a parameter tensor is a flat list of
its scalar entries, a network parameter list is a list of tensors; `zip`
truncates to the shorter list exactly as in Python). -/

def param_mix (tau t c : ℚ) : ℚ := c * tau + t * (1 - tau)

def soft_update (target current : List (List ℚ)) (tau : ℚ) : List (List ℚ) :=
  List.zipWith (fun tar cur => List.zipWith (fun t c => param_mix tau t c) tar cur) target current

/-- Reference semantics of the same loop: `store` is the heap of parameter
tensors, a network is a list of indices into the store, and each loop
iteration performs the in-place `tar.data.copy_(...)` write on the target
tensor, reading both operands from the current heap. -/
def soft_update_store : List (List ℚ) → List (ℕ × ℕ) → ℚ → List (List ℚ)
  | store, [], _ => store
  | store, p :: rest, tau =>
      soft_update_store
        (store.set p.1
          (List.zipWith (fun t c => param_mix tau t c) (store.getD p.1 []) (store.getD p.2 [])))
        rest tau

lemma zipWith_param_mix_one (tar cur : List ℚ) (h : tar.length = cur.length) :
    List.zipWith (fun t c => param_mix 1 t c) tar cur = cur := by
  induction tar generalizing cur with
  | nil => cases cur with
    | nil => rfl
    | cons c cs => simp at h
  | cons t ts ih =>
    cases cur with
    | nil => simp at h
    | cons c cs =>
      simp only [List.length_cons, Nat.succ.injEq] at h
      rw [List.zipWith_cons_cons, ih cs h]
      have hm : param_mix 1 t c = c := by unfold param_mix; ring
      rw [hm]

lemma zipWith_param_mix_zero (tar cur : List ℚ) (h : tar.length = cur.length) :
    List.zipWith (fun t c => param_mix 0 t c) tar cur = tar := by
  induction tar generalizing cur with
  | nil => rfl
  | cons t ts ih =>
    cases cur with
    | nil => simp at h
    | cons c cs =>
      simp only [List.length_cons, Nat.succ.injEq] at h
      rw [List.zipWith_cons_cons, ih cs h]
      have hm : param_mix 0 t c = t := by unfold param_mix; ring
      rw [hm]

lemma zipWith_param_mix_getD (tau : ℚ) (tar cur : List ℚ) (h : tar.length = cur.length) (j : ℕ) :
    (List.zipWith (fun t c => param_mix tau t c) tar cur).getD j 0
      = tau * cur.getD j 0 + (1 - tau) * tar.getD j 0 := by
  induction tar generalizing cur j with
  | nil =>
    cases cur with
    | nil => simp [List.getD]
    | cons c cs => simp at h
  | cons t ts ih =>
    cases cur with
    | nil => simp at h
    | cons c cs =>
      simp only [List.length_cons, Nat.succ.injEq] at h
      cases j with
      | zero =>
        simp only [List.zipWith_cons_cons, List.getD_cons_zero]
        unfold param_mix; ring
      | succ j => simpa [List.zipWith, List.getD] using ih cs h j

lemma soft_update_one (target current : List (List ℚ))
    (h : target.map List.length = current.map List.length) :
    soft_update target current 1 = current := by
  induction target generalizing current with
  | nil =>
    cases current with
    | nil => rfl
    | cons c cs => simp at h
  | cons t ts ih =>
    cases current with
    | nil => simp at h
    | cons c cs =>
      simp only [List.map_cons, List.cons.injEq] at h
      simp [soft_update, List.zipWith, zipWith_param_mix_one t c h.1]
      exact ih cs h.2

lemma soft_update_zero (target current : List (List ℚ))
    (h : target.map List.length = current.map List.length) :
    soft_update target current 0 = target := by
  induction target generalizing current with
  | nil => rfl
  | cons t ts ih =>
    cases current with
    | nil => simp at h
    | cons c cs =>
      simp only [List.map_cons, List.cons.injEq] at h
      simp [soft_update, List.zipWith, zipWith_param_mix_zero t c h.1]
      exact ih cs h.2

lemma soft_update_getD (target current : List (List ℚ)) (tau : ℚ)
    (h : target.map List.length = current.map List.length) (i j : ℕ) :
    ((soft_update target current tau).getD i []).getD j 0
      = tau * (current.getD i []).getD j 0 + (1 - tau) * (target.getD i []).getD j 0 := by
  induction target generalizing current i with
  | nil =>
    cases current with
    | nil => simp [soft_update, List.getD]
    | cons c cs => simp at h
  | cons t ts ih =>
    cases current with
    | nil => simp at h
    | cons c cs =>
      simp only [List.map_cons, List.cons.injEq] at h
      cases i with
      | zero =>
        simpa [soft_update, List.zipWith, List.getD] using zipWith_param_mix_getD tau t c h.1 j
      | succ i =>
        simpa [soft_update, List.zipWith, List.getD] using ih cs h.2 i

/-- C1: for equally shaped parameter lists, `soft_update(target, current, tau)`
sets each target entry to `tau * current + (1 - tau) * target_old`; with
`tau = 1` the target becomes exactly the current network, with `tau = 0` the
target is unchanged, and any other `tau` gives the elementwise interpolation
(out-of-range indices read the default 0 on both sides). -/
theorem C1_soft_update_formula (target current : List (List ℚ)) (tau : ℚ)
    (hshape : target.map List.length = current.map List.length) :
    (∀ i j : ℕ, ((soft_update target current tau).getD i []).getD j 0
        = tau * (current.getD i []).getD j 0 + (1 - tau) * (target.getD i []).getD j 0)
    ∧ soft_update target current 1 = current
    ∧ soft_update target current 0 = target := by
  refine ⟨fun i j => soft_update_getD target current tau hshape i j, ?_, ?_⟩
  · exact soft_update_one target current hshape
  · exact soft_update_zero target current hshape

/-- Concrete instance of C1 at `target = [[1, 2], [3]]`, `current = [[4, 6], [8]]`,
`tau = 1/2`. -/
theorem C1_soft_update_formula_witness :
    (([[(1 : ℚ), 2], [3]] : List (List ℚ)).map List.length
        = ([[(4 : ℚ), 6], [8]] : List (List ℚ)).map List.length)
    ∧ ((∀ i j : ℕ,
          ((soft_update [[(1 : ℚ), 2], [3]] [[(4 : ℚ), 6], [8]] (1/2)).getD i []).getD j 0
            = (1/2) * (([[(4 : ℚ), 6], [8]] : List (List ℚ)).getD i []).getD j 0
              + (1 - 1/2) * (([[(1 : ℚ), 2], [3]] : List (List ℚ)).getD i []).getD j 0)
        ∧ soft_update [[(1 : ℚ), 2], [3]] [[(4 : ℚ), 6], [8]] 1 = [[(4 : ℚ), 6], [8]]
        ∧ soft_update [[(1 : ℚ), 2], [3]] [[(4 : ℚ), 6], [8]] 0 = [[(1 : ℚ), 2], [3]]) :=
  ⟨by decide, C1_soft_update_formula [[(1 : ℚ), 2], [3]] [[(4 : ℚ), 6], [8]] (1/2) (by decide)⟩

lemma list_set_getD_ne {α : Type} (l : List α) (i j : ℕ) (a d : α) (h : i ≠ j) :
    (l.set i a).getD j d = l.getD j d := by
  induction l generalizing i j with
  | nil => rfl
  | cons x xs ih =>
    cases i with
    | zero =>
      cases j with
      | zero => exact absurd rfl h
      | succ j => simp [List.set, List.getD]
    | succ i =>
      cases j with
      | zero => simp [List.set, List.getD]
      | succ j =>
        simp only [List.set, List.getD_cons_succ]
        exact ih i j (fun hij => h (by simp [hij]))

lemma soft_update_store_frame (pairs : List (ℕ × ℕ)) (store : List (List ℚ)) (tau : ℚ)
    (j : ℕ) (hj : ∀ p ∈ pairs, p.1 ≠ j) :
    (soft_update_store store pairs tau).getD j [] = store.getD j [] := by
  induction pairs generalizing store with
  | nil => rfl
  | cons p rest ih =>
    simp only [soft_update_store]
    rw [ih _ (fun q hq => hj q (List.mem_cons_of_mem p hq))]
    exact list_set_getD_ne _ _ _ _ _ (hj p (List.mem_cons_self p rest))

/-- C10: in the reference semantics of `soft_update`, only tensors of the
target network are written: every store slot outside `target_refs` keeps its
value, so in particular (the parameter tensors of `current_net` being
disjoint from those of `target_net`, as the target is a deep copy) every
parameter of the current network is unchanged by the call. -/
theorem C10_soft_update_frame (store : List (List ℚ)) (target_refs current_refs : List ℕ)
    (tau : ℚ) (hdisj : ∀ t ∈ target_refs, ∀ c ∈ current_refs, t ≠ c) :
    (∀ j : ℕ, j ∉ target_refs →
        (soft_update_store store (target_refs.zip current_refs) tau).getD j []
          = store.getD j [])
    ∧ (∀ c ∈ current_refs,
        (soft_update_store store (target_refs.zip current_refs) tau).getD c []
          = store.getD c []) := by
  constructor
  · intro j hjmem
    refine soft_update_store_frame _ store tau j (fun p hp => ?_)
    intro hpj
    exact hjmem (hpj ▸ (List.of_mem_zip hp).1)
  · intro c hc
    refine soft_update_store_frame _ store tau c (fun p hp => ?_)
    have hpmem := List.of_mem_zip hp
    exact hdisj p.1 hpmem.1 c hc

/-- Concrete instance of C10: store with tensors `[[1], [2], [3]]`, target
network owning tensor 0, current network owning tensor 1. -/
theorem C10_soft_update_frame_witness :
    (∀ t ∈ [0], ∀ c ∈ [1], t ≠ c)
    ∧ ((∀ j : ℕ, j ∉ [0] →
          (soft_update_store [[(1 : ℚ)], [2], [3]] ([0].zip [1]) (1/2)).getD j []
            = ([[(1 : ℚ)], [2], [3]] : List (List ℚ)).getD j [])
      ∧ (∀ c ∈ [1],
          (soft_update_store [[(1 : ℚ)], [2], [3]] ([0].zip [1]) (1/2)).getD c []
            = ([[(1 : ℚ)], [2], [3]] : List (List ℚ)).getD c [])) :=
  ⟨by decide, C10_soft_update_frame [[(1 : ℚ)], [2], [3]] [0] [1] (1/2) (by decide)⟩

/-! ### Opaque networks and the plain-DQN critic objective
(AgentDQN, lines 135-207)

Networks are external differentiable objects; they are embedded as records of
their forward functions over batched rational tensors.  `AgentBase.__init__`
(line 25) sets `self.act = self.act_target = None`; `AgentDQN.init`
(lines 141-154) assigns `cri`, `cri_target` (a deep copy) and aliases
`act = cri`, but never assigns `act_target`.  Calling a `None` attribute is a
Python `TypeError`, embedded through `Except`. -/

structure TorchNet where
  fwd1 : List (List ℚ) → List (List ℚ)
  fwd2 : List (List ℚ) → List (List ℚ) → List ℚ

structure AgentDQNState where
  act : Option TorchNet
  act_target : Option TorchNet
  cri : Option TorchNet
  cri_target : Option TorchNet
  if_per : Bool

/-- Field state produced by `AgentDQN.init` (lines 141-154): `cri` is the new
QNet, `cri_target` its deep copy (same function values initially), `act`
aliases `cri` (line 148), and `act_target` keeps the `None` it got from
`AgentBase.__init__` (line 25). -/
def agent_dqn_init (qnet qnet_copy : TorchNet) (per : Bool) : AgentDQNState :=
  { act := some qnet
    act_target := none
    cri := some qnet
    cri_target := some qnet_copy
    if_per := per }

def as_callable (n : Option TorchNet) : Except String TorchNet :=
  match n with
  | none => Except.error "TypeError: NoneType object is not callable"
  | some f => Except.ok f

/-- TD label `reward + mask * next_q`, elementwise over the batch
(lines 193 and 203). -/
def td_label : List ℚ → List ℚ → List ℚ → List ℚ
  | r :: rs, m :: ms, q :: qs => (r + m * q) :: td_label rs ms qs
  | _, _, _ => []

/-- `tensor.gather(1, action)`: pick, for each batch row, the entry at the
sampled action index. -/
def gather1 (rows : List (List ℚ)) (idx : List ℕ) : List ℚ :=
  List.zipWith (fun row a => row.getD a 0) rows idx

/-- One term of `torch.nn.MSELoss` before reduction. -/
def mse_each (x y : ℚ) : ℚ := (x - y) ^ 2

/-- `torch.mean` of a flat tensor. -/
def list_mean (xs : List ℚ) : ℚ := xs.sum / xs.length

/-- `AgentDQN.get_obj_critic_raw` (lines 189-197).  In
`self.cri_target(next_s, self.act_target(next_s))` the inner call
`self.act_target(next_s)` is evaluated first, so it is the call whose
failure surfaces when `act_target` is `None`. -/
def dqn_get_obj_critic_raw (s : AgentDQNState) (reward mask : List ℚ) (action : List ℕ)
    (state next_s : List (List ℚ)) : Except String (ℚ × List ℚ) := do
  let atgt ← as_callable s.act_target
  let ctgt ← as_callable s.cri_target
  let cnet ← as_callable s.cri
  let next_q := ctgt.fwd2 next_s (atgt.fwd1 next_s)
  let labels := td_label reward mask next_q
  let q_value := gather1 (cnet.fwd1 state) action
  Except.ok (list_mean (List.zipWith mse_each q_value labels), q_value)

/-- `AgentDQN.get_obj_critic_per` (lines 199-207): elementwise MSE loss,
multiplied by the sampled importance weights, then averaged. -/
def dqn_get_obj_critic_per (s : AgentDQNState) (reward mask : List ℚ) (action : List ℕ)
    (state next_s : List (List ℚ)) (weights : List ℚ) : Except String (ℚ × List ℚ) := do
  let atgt ← as_callable s.act_target
  let ctgt ← as_callable s.cri_target
  let cnet ← as_callable s.cri
  let next_q := ctgt.fwd2 next_s (atgt.fwd1 next_s)
  let labels := td_label reward mask next_q
  let q_value := gather1 (cnet.fwd1 state) action
  Except.ok (list_mean (List.zipWith (fun l w => l * w)
      (List.zipWith mse_each q_value labels) weights), q_value)

/-- C2: after `AgentDQN.init`, `self.act_target` is still `None`, so both the
raw and the PER critic-objective paths raise a `TypeError` on every batch
before any label is computed; the TD-label expression of lines 193/203 itself
does give exactly 2.8 at reward 1, mask 0.9, next value 2, and the PER
reduction of line 206 multiplies elementwise losses by the supplied weights
before averaging. -/
theorem C2_dqn_label_paths :
    (∀ (q qc : TorchNet) (per : Bool) (reward mask : List ℚ) (action : List ℕ)
        (state next_s : List (List ℚ)),
      dqn_get_obj_critic_raw (agent_dqn_init q qc per) reward mask action state next_s
        = Except.error "TypeError: NoneType object is not callable")
    ∧ (∀ (q qc : TorchNet) (per : Bool) (reward mask : List ℚ) (action : List ℕ)
        (state next_s : List (List ℚ)) (weights : List ℚ),
      dqn_get_obj_critic_per (agent_dqn_init q qc per) reward mask action state next_s weights
        = Except.error "TypeError: NoneType object is not callable")
    ∧ td_label [1] [9/10] [2] = [14/5]
    ∧ list_mean (List.zipWith (fun l w => l * w) [(2 : ℚ), 4] [3, 5]) = 13 := by
  refine ⟨fun _ _ _ _ _ _ _ _ => rfl, fun _ _ _ _ _ _ _ _ _ => rfl, ?_, ?_⟩
  · norm_num [td_label]
  · norm_num [list_mean, List.zipWith]

/-! ### AgentDoubleDQN.init (lines 228-244) and AgentD3QN.init (lines 281-296)

Networks here are abstracted to heap identities (the aliasing structure is
what matters).  `AgentBase.__init__` leaves `act = None`; `AgentDoubleDQN.init`
builds the Adam optimizer from `self.act.parameters()` on line 240, two lines
before the aliasing assignment `self.act = self.cri` on line 242, while
`AgentD3QN.init` performs `self.act = self.cri` (line 291) before building the
optimizer from `self.act.parameters()` (line 294). -/

structure DoubleDQNFields where
  act : Option ℕ
  cri : Option ℕ
  cri_target : Option ℕ
  cri_opt_params : Option ℕ
deriving DecidableEq

def double_dqn_fresh : DoubleDQNFields := ⟨none, none, none, none⟩

def adam_params_of (net : Option ℕ) : Except String ℕ :=
  match net with
  | none => Except.error "AttributeError: NoneType object has no attribute parameters"
  | some h => Except.ok h

def agent_double_dqn_init_net (s : DoubleDQNFields) (qnet_id qnet_copy_id : ℕ) :
    Except String DoubleDQNFields := do
  let s1 := { s with cri := some qnet_id }
  let s2 := { s1 with cri_target := some qnet_copy_id }
  let p ← adam_params_of s2.act
  let s3 := { s2 with cri_opt_params := some p }
  Except.ok { s3 with act := s3.cri }

def agent_d3qn_init_net (s : DoubleDQNFields) (qnet_id qnet_copy_id : ℕ) :
    Except String DoubleDQNFields := do
  let s1 := { s with cri := some qnet_id }
  let s2 := { s1 with cri_target := some qnet_copy_id }
  let s3 := { s2 with act := s2.cri }
  let p ← adam_params_of s3.act
  Except.ok { s3 with cri_opt_params := some p }

/-- C8: on a freshly constructed agent (`act = None`), `AgentDoubleDQN.init`
dereferences `self.act.parameters()` before the aliasing assignment
`self.act = self.cri` and therefore raises an `AttributeError` instead of
succeeding; the sibling `AgentD3QN.init` orders the two statements the other
way round and does end up with the optimizer bound to the shared critic. -/
theorem C8_double_dqn_init_crashes :
    (∀ q qc : ℕ, agent_double_dqn_init_net double_dqn_fresh q qc
        = Except.error "AttributeError: NoneType object has no attribute parameters")
    ∧ (∀ q qc : ℕ, agent_d3qn_init_net double_dqn_fresh q qc
        = Except.ok ⟨some q, some q, some qc, some q⟩) :=
  ⟨fun _ _ => rfl, fun _ _ => rfl⟩

/-! ### AgentBase.save_load_model (lines 87-112)

A parameter set is a flat list of scalars; the two fixed file names
`actor.pth` / `critic.pth` become the two slots of `SLDisk`.  The load side of
the source is a single `if / elif / elif / else` chain: the `elif` on line 108
is reached only when the branch on line 105 (actor present and its file
exists) is not taken.  The function is total — a missing file only yields the
message of line 112 — which embeds the non-fatal behavior. -/

structure SLAgent where
  act : Option (List ℚ)
  cri : Option (List ℚ)
deriving DecidableEq

structure SLDisk where
  act_file : Option (List ℚ)
  cri_file : Option (List ℚ)
deriving DecidableEq

def save_load_model (s : SLAgent) (d : SLDisk) (save : Bool) : SLAgent × SLDisk × String :=
  if save then
    let d1 := match s.act with
      | some p => { d with act_file := some p }
      | none => d
    let d2 := match s.cri with
      | some p => { d1 with cri_file := some p }
      | none => d1
    (s, d2, "")
  else if s.act.isSome && d.act_file.isSome then
    ({ s with act := d.act_file }, d, "Loaded act")
  else if s.cri.isSome && d.cri_file.isSome then
    ({ s with cri := d.cri_file }, d, "Loaded cri")
  else
    (s, d, "FileNotFound when load_model")

/-- C3 fails on the code: with both networks present and both checkpoint
files on disk, the load call restores the actor but leaves the critic
parameters untouched (the critic branch sits behind an `elif`). -/
theorem C3_counterexample :
    (save_load_model ⟨some [1], some [2]⟩ ⟨some [10], some [20]⟩ false).1
        = ⟨some [10], some [2]⟩
    ∧ (⟨some [10], some [20]⟩ : SLDisk).cri_file = some [20]
    ∧ ((some [(2 : ℚ)] : Option (List ℚ)) ≠ some [20]) := by
  refine ⟨rfl, rfl, ?_⟩
  simp only [ne_eq, Option.some.injEq, List.cons.injEq, and_true]
  norm_num

/-- C3 amended: `if_save=True` writes both parameter sets to the fixed file
slots; `if_save=False` restores only the actor when the actor and its file
exist (the critic keeps its current parameters); the critic file is consulted
only when the actor branch is unavailable; when nothing can be loaded the
call just reports and leaves the agent unchanged (non-fatal). -/
theorem C3_save_load_amended (a c fa fc : List ℚ) (s : SLAgent) (d : SLDisk)
    (hact : s.act = some a) (hcri : s.cri = some c)
    (hfa : d.act_file = some fa) (hfc : d.cri_file = some fc) :
    (save_load_model s d true).2.1 = ⟨some a, some c⟩
    ∧ (save_load_model s d false).1 = ⟨some fa, some c⟩
    ∧ (∀ s2 : SLAgent, s2.cri = some c →
        save_load_model s2 ⟨d.act_file, none⟩ false
          = ({ s2 with act := d.act_file }, ⟨d.act_file, none⟩, "Loaded act")
          ∨ s2.act = none)
    ∧ (∀ s2 : SLAgent,
        save_load_model s2 ⟨none, none⟩ false
          = (s2, ⟨none, none⟩, "FileNotFound when load_model")) := by
  obtain ⟨sa, sc⟩ := s
  obtain ⟨da, dc⟩ := d
  simp only at hact hcri hfa hfc
  subst hact hcri hfa hfc
  refine ⟨rfl, rfl, ?_, ?_⟩
  · intro s2 hs2
    obtain ⟨s2a, s2c⟩ := s2
    cases s2a with
    | none => exact Or.inr rfl
    | some p => exact Or.inl (by simp [save_load_model])
  · intro s2
    obtain ⟨s2a, s2c⟩ := s2
    cases s2a with
    | none =>
      cases s2c with
      | none => rfl
      | some p => rfl
    | some p =>
      cases s2c with
      | none => rfl
      | some p2 => rfl

/-- Concrete instance of C3 (amended): both networks present, both files
present. -/
theorem C3_save_load_amended_witness :
    ((⟨some [1], some [2]⟩ : SLAgent).act = some [1]
      ∧ (⟨some [1], some [2]⟩ : SLAgent).cri = some [2]
      ∧ (⟨some [10], some [20]⟩ : SLDisk).act_file = some [10]
      ∧ (⟨some [10], some [20]⟩ : SLDisk).cri_file = some [20])
    ∧ (save_load_model ⟨some [1], some [2]⟩ ⟨some [10], some [20]⟩ true).2.1
        = ⟨some [1], some [2]⟩ := by
  refine ⟨⟨rfl, rfl, rfl, rfl⟩, ?_⟩
  exact (C3_save_load_amended [1] [2] [10] [20] ⟨some [1], some [2]⟩ ⟨some [10], some [20]⟩
    rfl rfl rfl rfl).1

/-! ### AgentDDPG.select_action (lines 327-330)

Line 330 is `return (action + self.ou_noise()).ratio_clip(-1, 1)`, where
`action + self.ou_noise()` is a numpy array.  A numpy array exposes `clip`
but no `ratio_clip` attribute, so the attribute access raises; the method
dispatch is embedded by name. -/

def ndarray_clip (arr : List ℚ) (lo hi : ℚ) : List ℚ := arr.map (fun x => min (max x lo) hi)

def ndarray_method_call (name : String) (arr : List ℚ) (lo hi : ℚ) : Except String (List ℚ) :=
  if name = "clip" then Except.ok (ndarray_clip arr lo hi)
  else Except.error ("AttributeError: numpy.ndarray object has no attribute " ++ name)

def ddpg_select_action (actor_out ou_sample : List ℚ) : Except String (List ℚ) :=
  ndarray_method_call "ratio_clip" (List.zipWith (fun a n => a + n) actor_out ou_sample) (-1) 1

/-- C5 describes the intent; the code instead calls the nonexistent ndarray
method `ratio_clip`, so every select_action call raises an AttributeError.
The intended `clip` call (the method numpy does expose) would, for every
actor output and noise sample, return the elementwise sum clipped so that
each component lies in `[-1, 1]`. -/
theorem C5_ddpg_select_action_bug :
    (∀ actor_out ou_sample : List ℚ,
      ddpg_select_action actor_out ou_sample
        = Except.error ("AttributeError: numpy.ndarray object has no attribute "
            ++ "ratio_clip"))
    ∧ (∀ actor_out ou_sample : List ℚ,
      (ndarray_clip (List.zipWith (fun a n => a + n) actor_out ou_sample) (-1) 1).all
          (fun x => decide ((-1 : ℚ) ≤ x) && decide (x ≤ 1)) = true) := by
  constructor
  · intro a n; rfl
  · intro a n
    simp only [ndarray_clip, List.all_eq_true, List.mem_map, Bool.and_eq_true,
      decide_eq_true_eq]
    rintro x ⟨y, _, rfl⟩
    constructor
    · exact le_min (le_max_right y (-1)) (by norm_num)
    · exact min_le_right _ _

/-! ### AgentTD3.update_net (lines 404-425)

The loop body is abstracted to the counts of the four kinds of update it
performs, in source order: critic optimizer step (lines 410-412, every
iteration), critic-target soft update (lines 413-414, guarded by
`i % update_freq == 0`), actor optimizer step (lines 416-420, every
iteration), actor-target soft update (lines 421-422, same guard).  The loop
runs for `i in range(int(target_step * repeat_times))`. -/

structure TD3Counters where
  critic_steps : ℕ
  critic_soft : ℕ
  actor_steps : ℕ
  actor_soft : ℕ
deriving DecidableEq

def td3_iter (freq : ℕ) (c : TD3Counters) (i : ℕ) : TD3Counters :=
  let c1 := { c with critic_steps := c.critic_steps + 1 }
  let c2 := if i % freq = 0 then { c1 with critic_soft := c1.critic_soft + 1 } else c1
  let c3 := { c2 with actor_steps := c2.actor_steps + 1 }
  if i % freq = 0 then { c3 with actor_soft := c3.actor_soft + 1 } else c3

def td3_update_net (n freq : ℕ) : TD3Counters :=
  (List.range n).foldl (td3_iter freq) ⟨0, 0, 0, 0⟩

/-- C4 fails on the code: already at n = 2 iterations with update_freq = 2,
the actor optimizer has stepped twice — once per iteration — while the
delayed actor-target soft update ran only once, so the actor update is not
restricted to every update_freq-th iteration. -/
theorem C4_counterexample :
    (td3_update_net 2 2).actor_steps = 2
    ∧ (td3_update_net 2 2).actor_soft = 1
    ∧ (2 : ℕ) ≠ 1 := by decide

lemma td3_update_net_succ (n freq : ℕ) :
    td3_update_net (n + 1) freq = td3_iter freq (td3_update_net n freq) n := by
  simp [td3_update_net, List.range_succ, List.foldl_append]

/-- C4 amended: in TD3's update_net, both the critic and the actor optimizer
step on every one of the n iterations; only the soft updates of the two
target networks are delayed, occurring exactly on the iterations i with
i % update_freq = 0. -/
theorem C4_td3_update_cadence (n freq : ℕ) :
    (td3_update_net n freq).critic_steps = n
    ∧ (td3_update_net n freq).actor_steps = n
    ∧ (td3_update_net n freq).critic_soft
        = ((List.range n).filter (fun i => decide (i % freq = 0))).length
    ∧ (td3_update_net n freq).actor_soft
        = ((List.range n).filter (fun i => decide (i % freq = 0))).length := by
  induction n with
  | zero => exact ⟨rfl, rfl, rfl, rfl⟩
  | succ n ih =>
    obtain ⟨ih1, ih2, ih3, ih4⟩ := ih
    have hfilter : ((List.range (n + 1)).filter (fun i => decide (i % freq = 0))).length
        = ((List.range n).filter (fun i => decide (i % freq = 0))).length
          + (if n % freq = 0 then 1 else 0) := by
      rw [List.range_succ, List.filter_append]
      by_cases h : n % freq = 0 <;> simp [h]
    rw [td3_update_net_succ]
    by_cases h : n % freq = 0
    · refine ⟨?_, ?_, ?_, ?_⟩ <;> simp [td3_iter, h, hfilter, ih1, ih2, ih3, ih4]
    · refine ⟨?_, ?_, ?_, ?_⟩ <;> simp [td3_iter, h, hfilter, ih1, ih2, ih3, ih4]

/-! ### AgentDoubleDQN.get_obj_critic_per (lines 269-278)

`torch.nn.SmoothL1Loss(reduction='none')` per element; `next_q` is the
elementwise minimum of the two target heads maximized over the action
dimension; the sampled Q values are gathered at the stored actions; the
importance-weighted sum of both heads' losses is averaged.  The third output
component records any `buffer.td_error_update` call made during the body —
the source returns on line 278 without one (contrast AgentTD3, lines
451-452). -/

def smooth_l1 (x y : ℚ) : ℚ := if |x - y| < 1 then (x - y) ^ 2 / 2 else |x - y| - 1 / 2

def list_max : List ℚ → ℚ
  | [] => 0
  | x :: xs => xs.foldl max x

structure TwinPERBatch where
  reward : List ℚ
  mask : List ℚ
  action : List ℕ
  weights : List ℚ
  q1_next : List (List ℚ)
  q2_next : List (List ℚ)
  q1_cur : List (List ℚ)
  q2_cur : List (List ℚ)

def double_dqn_obj_critic_per (b : TwinPERBatch) : ℚ × List ℚ × Option (List ℚ) :=
  let next_q := List.zipWith (fun r1 r2 => list_max (List.zipWith min r1 r2)) b.q1_next b.q2_next
  let labels := td_label b.reward b.mask next_q
  let q1 := gather1 b.q1_cur b.action
  let q2 := gather1 b.q2_cur b.action
  let losses := List.zipWith (fun x y => x + y)
    (List.zipWith smooth_l1 q1 labels) (List.zipWith smooth_l1 q2 labels)
  (list_mean (List.zipWith (fun l w => l * w) losses b.weights), q1, none)

/-- Priority vector the claim says gets pushed back to the buffer:
`|label - min(Q1, Q2)|` per sample (what the actor-critic twin PER paths,
e.g. AgentTD3 lines 451-452, do push). -/
def double_dqn_claimed_td (b : TwinPERBatch) : List ℚ :=
  let next_q := List.zipWith (fun r1 r2 => list_max (List.zipWith min r1 r2)) b.q1_next b.q2_next
  let labels := td_label b.reward b.mask next_q
  let q1 := gather1 b.q1_cur b.action
  let q2 := gather1 b.q2_cur b.action
  List.zipWith (fun l q => |l - q|) labels (List.zipWith min q1 q2)

/-- C6 fails on the code: on a concrete one-sample batch the DoubleDQN PER
objective performs no priority push at all (third component `none`), even
though the claimed priority vector `|label - min(Q1, Q2)|` there is `[9/5]`. -/
theorem C6_counterexample :
    (double_dqn_obj_critic_per
        ⟨[1], [9/10], [0], [2], [[2, 0]], [[3, 0]], [[5, 9]], [[1, 9]]⟩).2.2 = none
    ∧ double_dqn_claimed_td
        ⟨[1], [9/10], [0], [2], [[2, 0]], [[3, 0]], [[5, 9]], [[1, 9]]⟩ = [9/5]
    ∧ ((none : Option (List ℚ)) ≠ some [9/5]) := by
  refine ⟨rfl, ?_, by simp⟩
  norm_num [double_dqn_claimed_td, td_label, gather1, list_max, List.zipWith,
    min_def, max_def]

/-- C6 amended: the DoubleDQN/D3QN PER critic objective returns the
importance-weighted mean of the summed twin losses but never pushes updated
priorities to the buffer (no `td_error_update` call in its body). -/
theorem C6_double_dqn_per_no_push :
    (∀ b : TwinPERBatch, (double_dqn_obj_critic_per b).2.2 = none)
    ∧ (double_dqn_obj_critic_per
        ⟨[1], [9/10], [0], [2], [[2, 0]], [[3, 0]], [[5, 9]], [[1, 9]]⟩).1 = 6 := by
  refine ⟨fun b => rfl, ?_⟩
  norm_num [double_dqn_obj_critic_per, td_label, gather1, list_max, list_mean,
    smooth_l1, List.zipWith, min_def, max_def, abs]

/-! ### AgentPPO reward and advantage recursions (lines 712-757)

Both recursions run backwards over the trajectory, so they are embedded by
structural recursion from the head (index i uses the result for indices
i+1 ..).  Only the pre-standardization values are modelled: the claims
compare advantages before the `(adv - mean) / (std + 1e-5)` lines 729/756. -/

def r_ret_core : List ℚ → List ℚ → List ℚ
  | r :: rs, m :: ms =>
      let rest := r_ret_core rs ms
      (r + m * rest.headD 0) :: rest
  | _, _ => []

/-- AgentPPO.compute_reward_adv (lines 712-728) before standardization:
`r_ret[i] = reward[i] + mask[i] * r_ret[i+1]`,
`adv = r_ret - mask * value`. -/
def compute_reward_adv_core (rewards masks values : List ℚ) : List ℚ × List ℚ :=
  let r_ret := r_ret_core rewards masks
  (r_ret, List.zipWith (fun r mv => r - mv) r_ret (List.zipWith (fun m v => m * v) masks values))

/-- AgentPPO.compute_reward_gae (lines 732-755) before standardization; the
last two components are `pre_r_ret` and `pre_adv` as they stand after
processing the suffix. -/
def compute_reward_gae_core (lam : ℚ) : List ℚ → List ℚ → List ℚ → List ℚ × List ℚ × ℚ × ℚ
  | r :: rs, m :: ms, v :: vs =>
      let rest := compute_reward_gae_core lam rs ms vs
      let ri := r + m * rest.2.2.1
      let ai := r + m * rest.2.2.2 - v
      (ri :: rest.1, ai :: rest.2.1, ri, v + ai * lam)
  | _, _, _ => ([], [], 0, 0)

/-- C9: on the 3-step trajectory rewards [1,1,1], masks [1,1,0], values
[0,0,0], the GAE recursion at lambda = 1 and the plain reward-to-go recursion
produce the same pre-standardization advantages [3,2,1]; their elementwise
absolute difference is 0, well within the 1e-5 tolerance. -/
theorem C9_gae_lambda_one_monte_carlo :
    (compute_reward_adv_core [1, 1, 1] [1, 1, 0] [0, 0, 0]).2 = [3, 2, 1]
    ∧ (compute_reward_gae_core 1 [1, 1, 1] [1, 1, 0] [0, 0, 0]).2.1 = [3, 2, 1]
    ∧ List.zipWith (fun x y : ℚ => |x - y|)
        (compute_reward_adv_core [1, 1, 1] [1, 1, 0] [0, 0, 0]).2
        (compute_reward_gae_core 1 [1, 1, 1] [1, 1, 0] [0, 0, 0]).2.1 = [0, 0, 0]
    ∧ ((0 : ℚ) ≤ 1 / 100000) := by
  norm_num [compute_reward_adv_core, compute_reward_gae_core, r_ret_core, List.zipWith]

/-! ### gaussian_kl and its helpers bt, btr (lines 890-920)

`bt` transposes the last two dimensions, `btr` is the trace.  A batch element
carries the two mean vectors and the two Cholesky factors; the code computes
`sigma = A @ bt(A)`, inverts both covariances, and forms
`inner_mu  = (mu - mu_i)^T sigma_i_inv (mu - mu_i)` (line 916) and
`inner_sigma = log(det(sigma_inv) / det(sigma_i_inv)) - n + tr(sigma_i_inv @ sigma_inv)`
(line 917), returning half of each batch mean. -/

def bt {k : ℕ} (m : Matrix (Fin k) (Fin k) ℝ) : Matrix (Fin k) (Fin k) ℝ := m.transpose

def btr {k : ℕ} (m : Matrix (Fin k) (Fin k) ℝ) : ℝ := m.trace

structure GaussBatchElem (k : ℕ) where
  mu_i : Fin k → ℝ
  mu : Fin k → ℝ
  A_i : Matrix (Fin k) (Fin k) ℝ
  A : Matrix (Fin k) (Fin k) ℝ

noncomputable def sigma_i_of {k : ℕ} (p : GaussBatchElem k) : Matrix (Fin k) (Fin k) ℝ :=
  p.A_i * bt p.A_i

noncomputable def sigma_of {k : ℕ} (p : GaussBatchElem k) : Matrix (Fin k) (Fin k) ℝ :=
  p.A * bt p.A

noncomputable def inner_mu_term {k : ℕ} (p : GaussBatchElem k) : ℝ :=
  Matrix.dotProduct (fun j => p.mu j - p.mu_i j)
    (((sigma_i_of p)⁻¹).mulVec (fun j => p.mu j - p.mu_i j))

noncomputable def inner_sigma_term {k : ℕ} (p : GaussBatchElem k) : ℝ :=
  Real.log (((sigma_of p)⁻¹).det / ((sigma_i_of p)⁻¹).det) - (k : ℝ)
    + btr ((sigma_i_of p)⁻¹ * (sigma_of p)⁻¹)

noncomputable def list_mean_r (xs : List ℝ) : ℝ := xs.sum / xs.length

noncomputable def gaussian_kl {k : ℕ} (batch : List (GaussBatchElem k)) : ℝ × ℝ :=
  (1 / 2 * list_mean_r (batch.map inner_mu_term),
   1 / 2 * list_mean_r (batch.map inner_sigma_term))

/-- The mean-shift KL term as the claim (and the function's own doc string)
states it: `(1/2) (mu - mu_i)^T Sigma_i^(-1) (mu - mu_i)`. -/
noncomputable def spec_kl_mu {k : ℕ} (p : GaussBatchElem k) : ℝ :=
  1 / 2 * Matrix.dotProduct (fun j => p.mu j - p.mu_i j)
    (((sigma_i_of p)⁻¹).mulVec (fun j => p.mu j - p.mu_i j))

/-- The covariance KL term as the claim states it:
`KL(N(mu_i, Sigma_i) || N(mu_i, Sigma))
  = (1/2) (log(det Sigma / det Sigma_i) - n + tr(Sigma^(-1) Sigma_i))`. -/
noncomputable def spec_kl_sigma {k : ℕ} (p : GaussBatchElem k) : ℝ :=
  1 / 2 * (Real.log ((sigma_of p).det / (sigma_i_of p).det) - (k : ℝ)
    + Matrix.trace ((sigma_of p)⁻¹ * sigma_i_of p))

/-- C7: the first output of `gaussian_kl` is indeed the batch mean of the
claimed mean-shift term, but the second output is not the claimed covariance
KL: at the one-element batch with `mu_i = mu = 0` and `A_i = A = !![2]`
(two identical Gaussians, so the covariance KL must vanish, and the claimed
closed form does) the code returns `-15/32`, because line 917 has the
log-determinant ratio inverted and multiplies the two inverse covariances
instead of `Sigma^(-1) Sigma_i`. -/
theorem C7_gaussian_kl_sigma_term :
    (∀ (k : ℕ) (batch : List (GaussBatchElem k)),
        (gaussian_kl batch).1 = list_mean_r (batch.map spec_kl_mu))
    ∧ (gaussian_kl [(⟨fun _ => 0, fun _ => 0, !![2], !![2]⟩ : GaussBatchElem 1)]).2 = -(15/32)
    ∧ spec_kl_sigma (⟨fun _ => 0, fun _ => 0, !![2], !![2]⟩ : GaussBatchElem 1) = 0
    ∧ (gaussian_kl [(⟨fun _ => 0, fun _ => 0, !![2], !![2]⟩ : GaussBatchElem 1)]).2
        ≠ spec_kl_sigma (⟨fun _ => 0, fun _ => 0, !![2], !![2]⟩ : GaussBatchElem 1) := by
  have hsig : sigma_of (⟨fun _ => 0, fun _ => 0, !![2], !![2]⟩ : GaussBatchElem 1) = !![4] := by
    ext i j
    fin_cases i; fin_cases j
    simp [sigma_of, bt, Matrix.mul_apply, Fin.sum_univ_one]
    norm_num
  have hsigi : sigma_i_of (⟨fun _ => 0, fun _ => 0, !![2], !![2]⟩ : GaussBatchElem 1)
      = !![4] := by
    ext i j
    fin_cases i; fin_cases j
    simp [sigma_i_of, bt, Matrix.mul_apply, Fin.sum_univ_one]
    norm_num
  have hinv : (!![(4 : ℝ)])⁻¹ = !![1/4] := by
    refine Matrix.inv_eq_right_inv ?_
    ext i j
    fin_cases i; fin_cases j
    simp [Matrix.mul_apply, Fin.sum_univ_one, Matrix.one_apply]
  have hprod : (!![(1 : ℝ)/4] * !![(1 : ℝ)/4]) = !![1/16] := by
    ext i j
    fin_cases i; fin_cases j
    simp [Matrix.mul_apply, Fin.sum_univ_one]
    norm_num
  have hprod2 : (!![(1 : ℝ)/4] * !![(4 : ℝ)]) = !![1] := by
    ext i j
    fin_cases i; fin_cases j
    simp [Matrix.mul_apply, Fin.sum_univ_one]
  have hterm : inner_sigma_term (⟨fun _ => 0, fun _ => 0, !![2], !![2]⟩ : GaussBatchElem 1)
      = -(15/16) := by
    rw [inner_sigma_term, hsig, hsigi, hinv, btr, hprod, Matrix.det_fin_one_of,
      Matrix.trace_fin_one_of]
    norm_num [Real.log_one]
  refine ⟨?_, ?_, ?_, ?_⟩
  · intro k batch
    show 1 / 2 * ((batch.map inner_mu_term).sum / (batch.map inner_mu_term).length)
        = (batch.map spec_kl_mu).sum / (batch.map spec_kl_mu).length
    have hmap : batch.map spec_kl_mu = batch.map (fun p => 1 / 2 * inner_mu_term p) := rfl
    rw [hmap, List.sum_map_mul_left, List.length_map, List.length_map, mul_div_assoc]
  · show 1 / 2 * list_mean_r
        ([(⟨fun _ => 0, fun _ => 0, !![2], !![2]⟩ : GaussBatchElem 1)].map inner_sigma_term)
      = -(15/32)
    rw [List.map_singleton, hterm]
    norm_num [list_mean_r]
  · rw [spec_kl_sigma, hsig, hsigi, hinv, hprod2, Matrix.det_fin_one_of,
      Matrix.trace_fin_one_of]
    norm_num [Real.log_one]
  · have h2 : (gaussian_kl
        [(⟨fun _ => 0, fun _ => 0, !![2], !![2]⟩ : GaussBatchElem 1)]).2 = -(15/32) := by
      show 1 / 2 * list_mean_r
          ([(⟨fun _ => 0, fun _ => 0, !![2], !![2]⟩ : GaussBatchElem 1)].map inner_sigma_term)
        = -(15/32)
      rw [List.map_singleton, hterm]
      norm_num [list_mean_r]
    have h3 : spec_kl_sigma (⟨fun _ => 0, fun _ => 0, !![2], !![2]⟩ : GaussBatchElem 1)
        = 0 := by
      rw [spec_kl_sigma, hsig, hsigi, hinv, hprod2, Matrix.det_fin_one_of,
        Matrix.trace_fin_one_of]
      norm_num [Real.log_one]
    rw [h2, h3]
    norm_num
